import Mathlib

/-!
Verification of `scripts/generate_project_dna.py` (zenfile).

Shallow embedding: Python `str` values are modelled as `List Char` (Python
strings are sequences of code points; slicing `s[:1000]` is `List.take 1000`,
`+` / f-string interpolation is `List.append`, `"".join` is `List.flatten`).
The OpenAI Responses client is modelled as an explicit function
`send : Request → Response` passed to the dispatcher; the Python
`IndexError` raised by `response.output[0].content[0].text` on an empty
list is modelled by `Option` (`none` = the indexing error propagates).
-/

namespace ZenFile

/-- Python strings, modelled as lists of characters (code points). -/
abbrev PyStr := List Char

/-- `FileData` TypedDict of the source: metadata describing one project file. -/
structure FileData where
  name : PyStr
  date : PyStr
  content : PyStr
deriving DecidableEq

/-- The excerpt computed in the loop body of `build_payload`:
`excerpt = f["content"][:1000]`. -/
def excerpt (f : FileData) : PyStr :=
  f.content.take 1000

/-- The string appended to `sections` for one file `f` in `build_payload`:
`"---\n[FILE]\n" f"Name: {f['name']}\n" f"Date: {f['date']}\n" f"Excerpt: {excerpt}\n\n"`. -/
def fileSection (f : FileData) : PyStr :=
  "---\n[FILE]\nName: ".data ++ f.name ++ "\nDate: ".data ++ f.date
    ++ "\nExcerpt: ".data ++ excerpt f ++ "\n\n".data

/-- The initial element of `sections`: `f"I need a Project DNA Brief for: {folder_name}\n"`. -/
def headerLine (folder_name : PyStr) : PyStr :=
  "I need a Project DNA Brief for: ".data ++ folder_name ++ "\n".data

/-- `build_payload`: the header section followed by one section per file,
joined with `"".join(sections)`. -/
def build_payload (folder_name : PyStr) (files : List FileData) : PyStr :=
  (headerLine folder_name :: files.map fileSection).flatten

end ZenFile

namespace ZenFile

/-- A `{"role": ..., "content": ...}` message of the `input` list. -/
structure Message where
  role : PyStr
  content : PyStr
deriving DecidableEq

/-- The argument bundle of the single `client.responses.create` call:
model identifier, the two-message input list, and the sampling temperature
(a Python float carrying no arithmetic here, modelled as a rational). -/
structure Request where
  model : PyStr
  input : List Message
  temperature : ℚ
deriving DecidableEq

/-- One content segment of a response output item (carries `.text`). -/
structure ContentPart where
  text : PyStr
deriving DecidableEq

/-- One item of `response.output` (carries the `.content` list). -/
structure OutputItem where
  content : List ContentPart
deriving DecidableEq

/-- The response object returned by the external client: its `.output` list. -/
structure Response where
  output : List OutputItem
deriving DecidableEq

/-- Default of the `model` keyword argument: `"gpt-4.1-mini"`. -/
def defaultModel : PyStr :=
  "gpt-4.1-mini".data

/-- Default of the `temperature` keyword argument: `0.3`. -/
def defaultTemperature : ℚ :=
  3 / 10

/-- The extraction `message = response.output[0].content[0].text`; `none`
models the `IndexError` raised when either list is empty. -/
def extractFirstText (r : Response) : Option PyStr :=
  match r.output.get? 0 with
  | none => none
  | some item =>
    match item.content.get? 0 with
    | none => none
    | some part => some part.text

/-- `generate_project_dna` with the external client passed explicitly as
`send`; mirrors the Python body: build the payload, issue the one
`client.responses.create` call, extract the first text of the first output
item. -/
def generate_project_dna (send : Request → Response)
    (folder_name : PyStr) (files_data : List FileData)
    (system_prompt_text : PyStr) (model : PyStr) (temperature : ℚ) :
    Option PyStr :=
  let data_payload := build_payload folder_name files_data
  let response := send
    ⟨model,
     [⟨"system".data, system_prompt_text⟩, ⟨"user".data, data_payload⟩],
     temperature⟩
  extractFirstText response

/-- `generate_project_dna` invoked with both keyword defaults in place. -/
def generate_project_dna_defaults (send : Request → Response)
    (folder_name : PyStr) (files_data : List FileData)
    (system_prompt_text : PyStr) : Option PyStr :=
  generate_project_dna send folder_name files_data system_prompt_text
    defaultModel defaultTemperature

/-- The (single) request value that `generate_project_dna` passes to the
external client, written out as a standalone value for the statements. -/
def dnaRequest (folder_name : PyStr) (files_data : List FileData)
    (system_prompt_text : PyStr) (model : PyStr) (temperature : ℚ) : Request :=
  ⟨model,
   [⟨"system".data, system_prompt_text⟩,
    ⟨"user".data, build_payload folder_name files_data⟩],
   temperature⟩

end ZenFile

namespace ZenFile

/-- C2: for every label and the empty file sequence, `build_payload`
returns exactly the header string `"I need a Project DNA Brief for: {label}\n"`,
with no file blocks appended and no other characters. -/
theorem build_payload_nil (label : PyStr) :
    build_payload label []
      = "I need a Project DNA Brief for: ".data ++ label ++ "\n".data := by
  simp [build_payload, headerLine]

/-- C4: `build_payload` is order-preserving: the payload for `l1 ++ l2` is
the payload for `l1` followed by the sections of `l2`, each file section in
input order; prepending a file puts its section first. No reordering and no
deduplication happen: the sections are exactly `files.map fileSection`,
concatenated in order. -/
theorem build_payload_order (label : PyStr) :
    (∀ l1 l2 : List FileData,
      build_payload label (l1 ++ l2)
        = build_payload label l1 ++ (l2.map fileSection).flatten)
    ∧ (∀ (f : FileData) (files : List FileData),
      build_payload label (f :: files)
        = headerLine label ++ (fileSection f ++ (files.map fileSection).flatten)) := by
  constructor
  · intro l1 l2
    simp [build_payload]
  · intro f files
    simp [build_payload]

/-- C5: `build_payload` is deterministic: two calls on an identical folder
label and an identical ordered sequence of `FileData` records return
identical payload strings. -/
theorem build_payload_deterministic (label1 label2 : PyStr)
    (files1 files2 : List FileData)
    (hl : label1 = label2) (hf : files1 = files2) :
    build_payload label1 files1 = build_payload label2 files2 := by
  rw [hl, hf]

/-- Witness for C5: the determinism theorem applied at a concrete label and
file list. -/
theorem build_payload_deterministic_witness :
    build_payload "Budget Reports".data
        [⟨"budget.xlsx".data, "2025-12-01".data, "Q4 numbers...".data⟩]
      = build_payload "Budget Reports".data
        [⟨"budget.xlsx".data, "2025-12-01".data, "Q4 numbers...".data⟩] :=
  build_payload_deterministic _ _ _ _ rfl rfl

/-- Helper: the section of any member file occurs contiguously inside the
payload, between the sections of the files before and after it. -/
theorem fileSection_infix_build_payload (label : PyStr) (files : List FileData)
    (f : FileData) (hf : f ∈ files) :
    fileSection f <:+: build_payload label files := by
  obtain ⟨s, t, rfl⟩ := List.append_of_mem hf
  exact ⟨headerLine label ++ (s.map fileSection).flatten,
    (t.map fileSection).flatten, by simp [build_payload]⟩

/-- C1: for every file of the input, the `Excerpt:` line of its block in
the payload carries `excerpt f`, the content truncated to its first 1000
characters: content of length at most 1000 passes unmodified, and longer
content is cut to exactly its first 1000 characters, with no truncation
marker added (the line is excerpt followed directly by `"\n\n"`). -/
theorem build_payload_excerpt (label : PyStr) (files : List FileData)
    (f : FileData) (hf : f ∈ files) :
    ("\nExcerpt: ".data ++ excerpt f ++ "\n\n".data) <:+: build_payload label files
    ∧ (f.content.length ≤ 1000 → excerpt f = f.content)
    ∧ (1000 < f.content.length →
        (excerpt f).length = 1000 ∧ excerpt f <+: f.content) := by
  refine ⟨?_, ?_, ?_⟩
  · refine List.IsInfix.trans ?_ (fileSection_infix_build_payload label files f hf)
    exact ⟨"---\n[FILE]\nName: ".data ++ f.name ++ "\nDate: ".data ++ f.date, [],
      by simp [fileSection]⟩
  · intro h
    simp [excerpt, List.take_of_length_le h]
  · intro h
    constructor
    · simp [excerpt, List.length_take]
      omega
    · exact List.take_prefix _ _

/-- Witness for C1: the excerpt theorem applied to the one record of a
concrete one-file input. -/
theorem build_payload_excerpt_witness :
    ("\nExcerpt: ".data ++ excerpt ⟨"n".data, "d".data, "c".data⟩ ++ "\n\n".data)
        <:+: build_payload "L".data [⟨"n".data, "d".data, "c".data⟩]
    ∧ (("c".data : PyStr).length ≤ 1000 →
        excerpt ⟨"n".data, "d".data, "c".data⟩ = "c".data)
    ∧ (1000 < ("c".data : PyStr).length →
        (excerpt ⟨"n".data, "d".data, "c".data⟩).length = 1000
        ∧ excerpt ⟨"n".data, "d".data, "c".data⟩ <+: "c".data) :=
  build_payload_excerpt "L".data [⟨"n".data, "d".data, "c".data⟩]
    ⟨"n".data, "d".data, "c".data⟩ (by decide)

/-- C8: no validation of the fields: any member record, even with empty
`name`, `date`, or `content`, still contributes its block to the payload,
and an empty field appears as the empty string directly after its label
(the label is immediately followed by the newline that ends the line). -/
theorem build_payload_no_validation (label : PyStr) (files : List FileData)
    (f : FileData) (hf : f ∈ files) :
    fileSection f <:+: build_payload label files
    ∧ (f.name = [] → fileSection f
        = "---\n[FILE]\nName: \nDate: ".data ++ f.date ++ "\nExcerpt: ".data
          ++ excerpt f ++ "\n\n".data)
    ∧ (f.date = [] → fileSection f
        = "---\n[FILE]\nName: ".data ++ f.name ++ "\nDate: \nExcerpt: ".data
          ++ excerpt f ++ "\n\n".data)
    ∧ (f.content = [] → fileSection f
        = "---\n[FILE]\nName: ".data ++ f.name ++ "\nDate: ".data ++ f.date
          ++ "\nExcerpt: \n\n".data) := by
  have hA : ("---\n[FILE]\nName: \nDate: ".data : PyStr)
      = "---\n[FILE]\nName: ".data ++ "\nDate: ".data := by decide
  have hB : ("\nDate: \nExcerpt: ".data : PyStr)
      = "\nDate: ".data ++ "\nExcerpt: ".data := by decide
  have hC : ("\nExcerpt: \n\n".data : PyStr)
      = "\nExcerpt: ".data ++ "\n\n".data := by decide
  refine ⟨fileSection_infix_build_payload label files f hf, ?_, ?_, ?_⟩
  · intro h
    simp [fileSection, h, hA]
  · intro h
    simp [fileSection, h, hB]
  · intro h
    simp [fileSection, excerpt, h, hC]

/-- Witness for C8: the no-validation theorem applied to a record all of
whose fields are empty, sitting in a concrete one-record input. -/
theorem build_payload_no_validation_witness :
    fileSection ⟨[], [], []⟩ <:+: build_payload "L".data [⟨[], [], []⟩]
    ∧ (([] : PyStr) = [] → fileSection ⟨[], [], []⟩
        = "---\n[FILE]\nName: \nDate: ".data ++ [] ++ "\nExcerpt: ".data
          ++ excerpt ⟨[], [], []⟩ ++ "\n\n".data)
    ∧ (([] : PyStr) = [] → fileSection ⟨[], [], []⟩
        = "---\n[FILE]\nName: ".data ++ [] ++ "\nDate: \nExcerpt: ".data
          ++ excerpt ⟨[], [], []⟩ ++ "\n\n".data)
    ∧ (([] : PyStr) = [] → fileSection ⟨[], [], []⟩
        = "---\n[FILE]\nName: ".data ++ [] ++ "\nDate: ".data ++ []
          ++ "\nExcerpt: \n\n".data) :=
  build_payload_no_validation "L".data [⟨[], [], []⟩] ⟨[], [], []⟩ (by decide)

/-- Helper: the character count of one file section. -/
theorem fileSection_length (f : FileData) :
    (fileSection f).length
      = 36 + f.name.length + f.date.length + min f.content.length 1000 := by
  have l1 : ("---\n[FILE]\nName: ".data : PyStr).length = 17 := by decide
  have l2 : ("\nDate: ".data : PyStr).length = 7 := by decide
  have l3 : ("\nExcerpt: ".data : PyStr).length = 10 := by decide
  have l4 : ("\n\n".data : PyStr).length = 2 := by decide
  simp [fileSection, excerpt, List.length_take, l1, l2, l3, l4]
  omega

/-- C9: `build_payload` is total: on every label and every finite list of
records with arbitrary field strings it yields a string whose length obeys
a closed formula; the `min … 1000` term records that the content slice
takes at most the first 1000 characters without requiring the content to be
that long (shorter content contributes its full length). -/
theorem build_payload_total (label : PyStr) (files : List FileData) :
    (build_payload label files).length
      = 33 + label.length
        + ((files.map (fun f =>
            36 + f.name.length + f.date.length + min f.content.length 1000)).sum)
    ∧ ∀ c : PyStr, (c.take 1000).length = min c.length 1000 := by
  have hh : (headerLine label).length = 33 + label.length := by
    have l0 : ("I need a Project DNA Brief for: ".data : PyStr).length = 32 := by
      decide
    simp [headerLine, l0]
    omega
  have hmap : files.map (fun f => (fileSection f).length)
      = files.map (fun f =>
          36 + f.name.length + f.date.length + min f.content.length 1000) :=
    List.map_congr_left (fun f _ => fileSection_length f)
  constructor
  · simp [build_payload, List.length_flatten, List.map_map, Function.comp_def,
      hmap, hh]
  · intro c
    simp [List.length_take]
    omega

/-- One file block as section 4.1 of the spec words it (spec-side
definition, for comparison with the source-side `fileSection`): a separator
line, a `[FILE]` marker line, then `Name:`, `Date:`, and `Excerpt:` lines,
the excerpt being the record content truncated to its first 1000
characters, and a blank line closing the block. -/
def specBlock (f : FileData) : PyStr :=
  "---\n".data ++ "[FILE]\n".data
    ++ ("Name: ".data ++ f.name ++ "\n".data)
    ++ ("Date: ".data ++ f.date ++ "\n".data)
    ++ ("Excerpt: ".data ++ f.content.take 1000 ++ "\n".data)
    ++ "\n".data

/-- The payload as the spec words it: the header line followed by one
block per record, in input order. -/
def specPayload (label : PyStr) (files : List FileData) : PyStr :=
  ("I need a Project DNA Brief for: ".data ++ label ++ "\n".data)
    ++ (files.map specBlock).flatten

/-- Helper: the spec-side block and the source-side section coincide. -/
theorem specBlock_eq (f : FileData) : specBlock f = fileSection f := by
  have h1 : ("---\n[FILE]\nName: ".data : PyStr)
      = "---\n".data ++ "[FILE]\n".data ++ "Name: ".data := by decide
  have h2 : ("\nDate: ".data : PyStr) = "\n".data ++ "Date: ".data := by decide
  have h3 : ("\nExcerpt: ".data : PyStr) = "\n".data ++ "Excerpt: ".data := by
    decide
  have h4 : ("\n\n".data : PyStr) = "\n".data ++ "\n".data := by decide
  simp [specBlock, fileSection, excerpt, h1, h2, h3, h4]

/-- The record of the spec's worked example. -/
def exampleRecord : FileData :=
  ⟨"budget.xlsx".data, "2025-12-01".data, "Q4 numbers...".data⟩

/-- The payload of the spec's worked example:
`build_payload("Budget Reports", [{"name":"budget.xlsx","date":"2025-12-01","content":"Q4 numbers..."}])`. -/
def examplePayload : PyStr :=
  build_payload "Budget Reports".data [exampleRecord]

set_option maxRecDepth 8000 in
/-- C3: the payload consists of the header line followed by, for each
record in order, a block of a separator line, a `[FILE]` marker, and
`Name:`, `Date:`, `Excerpt:` lines (the spec-side `specPayload`); on the
spec's worked example the payload starts with
`"I need a Project DNA Brief for: Budget Reports\n"` and contains the
block pieces `Name: budget.xlsx`, `Date: 2025-12-01`,
`Excerpt: Q4 numbers...`. -/
theorem build_payload_matches_spec :
    (∀ (label : PyStr) (files : List FileData),
        build_payload label files = specPayload label files)
    ∧ "I need a Project DNA Brief for: Budget Reports\n".data <+: examplePayload
    ∧ "---\n[FILE]\n".data <:+: examplePayload
    ∧ "Name: budget.xlsx\n".data <:+: examplePayload
    ∧ "Date: 2025-12-01\n".data <:+: examplePayload
    ∧ "Excerpt: Q4 numbers...\n".data <:+: examplePayload := by
  refine ⟨?_, by decide, by decide, by decide, by decide, by decide⟩
  intro label files
  have hmap : files.map specBlock = files.map fileSection :=
    List.map_congr_left (fun f _ => specBlock_eq f)
  simp [build_payload, specPayload, headerLine, hmap]

/-- C10: `build_payload` is not injective: two distinct inputs — one with a
file record, one with the block text smuggled into the label and no files —
produce identical payload strings, because field values are interpolated
without escaping. -/
theorem build_payload_not_injective :
    ∃ (label1 label2 : PyStr) (files1 files2 : List FileData),
      (label1, files1) ≠ (label2, files2)
      ∧ build_payload label1 files1 = build_payload label2 files2 := by
  refine ⟨"X".data,
    "X\n---\n[FILE]\nName: n\nDate: d\nExcerpt: c\n".data,
    [⟨"n".data, "d".data, "c".data⟩], [], ?_, ?_⟩
  · decide
  · decide

/-- The response used by the dispatcher witnesses: one output item with one
content segment whose text is `"OK"`. -/
def respOK : Response :=
  ⟨[⟨[⟨"OK".data⟩]⟩]⟩

/-- A client model that answers every request with `respOK`. -/
def sendOK : Request → Response :=
  fun _ => respOK

/-- A client model that answers every request with an empty output list. -/
def sendEmpty : Request → Response :=
  fun _ => Response.mk []

/-- C6: `generate_project_dna` builds the payload with `build_payload`,
issues the single request `dnaRequest` — carrying the system-role message
with the instruction text, the user-role message with the payload, the
model identifier and the temperature — to the external client, depends on
the client only through its answer to that one request, defaults the model
to `"gpt-4.1-mini"` and the temperature to `0.3`, and returns the first
text segment of the first output item of the response. -/
theorem generate_project_dna_contract (send send2 : Request → Response)
    (label : PyStr) (files : List FileData) (sys model : PyStr) (temp : ℚ)
    (seg : ContentPart) (parts : List ContentPart) (items : List OutputItem)
    (h2 : send2 (dnaRequest label files sys model temp)
        = send (dnaRequest label files sys model temp))
    (hresp : send (dnaRequest label files sys model temp)
        = ⟨⟨seg :: parts⟩ :: items⟩) :
    generate_project_dna send label files sys model temp
        = extractFirstText (send (dnaRequest label files sys model temp))
    ∧ dnaRequest label files sys model temp
        = ⟨model,
           [⟨"system".data, sys⟩, ⟨"user".data, build_payload label files⟩],
           temp⟩
    ∧ generate_project_dna_defaults send label files sys
        = generate_project_dna send label files sys "gpt-4.1-mini".data (3 / 10)
    ∧ generate_project_dna send2 label files sys model temp
        = generate_project_dna send label files sys model temp
    ∧ generate_project_dna send label files sys model temp = some seg.text := by
  refine ⟨rfl, rfl, rfl, ?_, ?_⟩
  · show extractFirstText (send2 (dnaRequest label files sys model temp))
        = extractFirstText (send (dnaRequest label files sys model temp))
    rw [h2]
  · show extractFirstText (send (dnaRequest label files sys model temp))
        = some seg.text
    rw [hresp]
    rfl

/-- Witness for C6: the contract theorem at a concrete client that answers
with one `"OK"` segment, with empty label, file list and instruction. -/
theorem generate_project_dna_contract_witness :
    generate_project_dna sendOK [] [] [] "gpt-4.1-mini".data (3 / 10)
        = extractFirstText (sendOK (dnaRequest [] [] [] "gpt-4.1-mini".data (3 / 10)))
    ∧ dnaRequest [] [] [] "gpt-4.1-mini".data (3 / 10)
        = ⟨"gpt-4.1-mini".data,
           [⟨"system".data, []⟩, ⟨"user".data, build_payload [] []⟩],
           3 / 10⟩
    ∧ generate_project_dna_defaults sendOK [] [] []
        = generate_project_dna sendOK [] [] [] "gpt-4.1-mini".data (3 / 10)
    ∧ generate_project_dna sendOK [] [] [] "gpt-4.1-mini".data (3 / 10)
        = generate_project_dna sendOK [] [] [] "gpt-4.1-mini".data (3 / 10)
    ∧ generate_project_dna sendOK [] [] [] "gpt-4.1-mini".data (3 / 10)
        = some ("OK".data) :=
  generate_project_dna_contract sendOK sendOK [] [] [] "gpt-4.1-mini".data
    (3 / 10) ⟨"OK".data⟩ [] [] rfl rfl

/-- C7: when the response to the one issued request has an empty output
list, or its first output item has an empty content list, the indexing in
`response.output[0].content[0].text` fails (modelled by `none`): no default
value is returned, and the result is exactly what the unwrapped extraction
yields — nothing is wrapped, classified, or retried. -/
theorem generate_project_dna_index_error (send : Request → Response)
    (label : PyStr) (files : List FileData) (sys model : PyStr) (temp : ℚ)
    (h : (send (dnaRequest label files sys model temp)).output = []
      ∨ ∃ item rest, (send (dnaRequest label files sys model temp)).output
            = item :: rest
          ∧ item.content = []) :
    generate_project_dna send label files sys model temp = none
    ∧ generate_project_dna send label files sys model temp
        = extractFirstText (send (dnaRequest label files sys model temp)) := by
  refine ⟨?_, rfl⟩
  show extractFirstText (send (dnaRequest label files sys model temp)) = none
  rcases h with h | ⟨item, rest, hout, hitem⟩
  · simp [extractFirstText, h]
  · simp [extractFirstText, hout, hitem]

/-- Witness for C7: the index-error theorem at a concrete client whose
response has an empty output list. -/
theorem generate_project_dna_index_error_witness :
    generate_project_dna sendEmpty [] [] [] "gpt-4.1-mini".data (3 / 10) = none
    ∧ generate_project_dna sendEmpty [] [] [] "gpt-4.1-mini".data (3 / 10)
        = extractFirstText
            (sendEmpty (dnaRequest [] [] [] "gpt-4.1-mini".data (3 / 10))) :=
  generate_project_dna_index_error sendEmpty [] [] [] "gpt-4.1-mini".data
    (3 / 10) (Or.inl rfl)

end ZenFile
